import Mathlib

/-!
Shallow embedding of the library-management book service
(service layer `bookService`, domain types `Book` / `CreateBookRequest` /
`UpdateBookRequest` / `BookFilter`, and the PostgreSQL repository
`bookRepository`).

Modelling conventions:
* Go `int` becomes `Int`; timestamps (`time.Time`) become `Nat` ticks, and
  each operation that reads the clock takes an explicit `now : Nat`
  parameter.  The database trigger that stamps `updated_at` on UPDATE uses
  the same logical clock, so the value written by `ApplyTo` is the value
  persisted.
* The SQL store is a `Store`: the list of rows of the `books` table in
  insertion order together with the next SERIAL id.
* `LOWER(x) LIKE LOWER('%v%')` is modelled as case-insensitive substring
  containment (filter values containing SQL wildcard characters are out of
  scope, as in the specification).
* `GetByISBN` / `GetByID` return `Option` instead of (row, sql.ErrNoRows).
* The service functions thread the store explicitly and report errors with
  the taxonomy of the specification (`SvcError`).  `CreateBook`
  additionally returns the list of repository calls it performed, so that
  "no storage access happened" is expressible.
-/

namespace LibraryMgmt

/-- Case-sensitive substring containment on character lists:
`isSubstrList n h` is true iff `n` occurs contiguously inside `h`. -/
def isSubstrList (needle : List Char) : List Char → Bool
  | [] => needle.isEmpty
  | c :: rest => needle.isPrefixOf (c :: rest) || isSubstrList needle rest

/-- The characters of `s` lower-cased (the SQL `LOWER`). -/
def lowerStr (s : String) : List Char :=
  s.data.map Char.toLower

/-- Model of the SQL predicate `LOWER(hay) LIKE LOWER('%pat%')`:
case-insensitive substring containment. -/
def ciLike (hay pat : String) : Bool :=
  isSubstrList (lowerStr pat) (lowerStr hay)

/-- Model of the SQL predicate `LOWER(a) = LOWER(b)`. -/
def ciEq (a b : String) : Bool :=
  lowerStr a == lowerStr b

/-- Domain model `Book` (internal/domain, struct Book). -/
structure Book where
  ID : Int
  Title : String
  Author : String
  ISBN : String
  Publisher : String
  PublishYear : Int
  Genre : String
  Pages : Int
  Available : Bool
  Description : String
  CreatedAt : Nat
  UpdatedAt : Nat
deriving DecidableEq

/-- Request payload `CreateBookRequest`. -/
structure CreateBookRequest where
  Title : String
  Author : String
  ISBN : String
  Publisher : String
  PublishYear : Int
  Genre : String
  Pages : Int
  Description : String
deriving DecidableEq

/-- Request payload `UpdateBookRequest`: every field optional
(`nil` pointer = `none`). -/
structure UpdateBookRequest where
  Title : Option String
  Author : Option String
  ISBN : Option String
  Publisher : Option String
  PublishYear : Option Int
  Genre : Option String
  Pages : Option Int
  Available : Option Bool
  Description : Option String
deriving DecidableEq

/-- Filtering options `BookFilter`; `Author`, `Genre`, `Search` use the
empty string for "absent" (as the Go struct does), `Available` is a
nullable boolean. -/
structure BookFilter where
  Author : String
  Genre : String
  Available : Option Bool
  Search : String
deriving DecidableEq

/-- `CreateBookRequest.Validate` (internal/domain): returns the first
error message, or `none` when the request passes.  Mirrors the Go method
check for check: required strings non-empty, publish year in [1000,2030],
pages ≥ 1.  (No string-length checks are performed.) -/
def CreateBookRequest.Validate (r : CreateBookRequest) : Option String :=
  if r.Title = "" then some "title is required"
  else if r.Author = "" then some "author is required"
  else if r.ISBN = "" then some "ISBN is required"
  else if r.Publisher = "" then some "publisher is required"
  else if r.Genre = "" then some "genre is required"
  else if r.PublishYear < 1000 ∨ r.PublishYear > 2030 then
    some "publish year must be between 1000 and 2030"
  else if r.Pages < 1 then some "pages must be greater than 0"
  else none

/-- `CreateBookRequest.ToBook`: builds the domain `Book` with
`Available := true` and both timestamps set to `now`; the id is the Go
zero value until the repository assigns one. -/
def CreateBookRequest.ToBook (r : CreateBookRequest) (now : Nat) : Book :=
  { ID := 0
    Title := r.Title
    Author := r.Author
    ISBN := r.ISBN
    Publisher := r.Publisher
    PublishYear := r.PublishYear
    Genre := r.Genre
    Pages := r.Pages
    Available := true
    Description := r.Description
    CreatedAt := now
    UpdatedAt := now }

/-- `UpdateBookRequest.ApplyTo`: each non-`nil` field overwrites the
corresponding field of `book`; `UpdatedAt` is set to `now`
(`time.Now()`). -/
def UpdateBookRequest.ApplyTo (r : UpdateBookRequest) (book : Book) (now : Nat) : Book :=
  { book with
    Title := r.Title.getD book.Title
    Author := r.Author.getD book.Author
    ISBN := r.ISBN.getD book.ISBN
    Publisher := r.Publisher.getD book.Publisher
    PublishYear := r.PublishYear.getD book.PublishYear
    Genre := r.Genre.getD book.Genre
    Pages := r.Pages.getD book.Pages
    Available := r.Available.getD book.Available
    Description := r.Description.getD book.Description
    UpdatedAt := now }

/-! ## Repository (internal/repository/postgres, `bookRepository`) -/

/-- The `books` table, rows in insertion order, plus the next SERIAL id. -/
structure Store where
  books : List Book
  nextId : Int
deriving DecidableEq

/-- `SELECT ... FROM books WHERE id = $1` (first matching row). -/
def getByID (books : List Book) (id : Int) : Option Book :=
  books.find? (fun b => b.ID == id)

/-- `SELECT ... FROM books WHERE isbn = $1` — exact string match. -/
def getByISBN (books : List Book) (isbn : String) : Option Book :=
  books.find? (fun b => b.ISBN == isbn)

/-- The WHERE conditions accumulated by `bookRepository.GetAll`, one entry
per non-absent filter field, in the order the Go code appends them. -/
def filterConds (f : BookFilter) : List (Book → Bool) :=
  (if f.Author ≠ "" then [fun b : Book => ciLike b.Author f.Author]
   else ([] : List (Book → Bool))) ++
  (if f.Genre ≠ "" then [fun b : Book => ciEq b.Genre f.Genre]
   else ([] : List (Book → Bool))) ++
  (match f.Available with
   | some v => [fun b : Book => b.Available == v]
   | none => ([] : List (Book → Bool))) ++
  (if f.Search ≠ "" then
    [fun b : Book => ciLike b.Title f.Search || ciLike b.Author f.Search ||
              ciLike b.Description f.Search]
   else ([] : List (Book → Bool)))

/-- A row satisfies the WHERE clause of `GetAll` iff every accumulated
condition holds; no conditions (or a nil filter) keeps every row. -/
def rowMatches (f : Option BookFilter) (b : Book) : Bool :=
  match f with
  | none => true
  | some f => (filterConds f).all (fun c => c b)

/-- `bookRepository.GetAll`: filtered rows ordered by
`created_at DESC`. -/
def GetAll (books : List Book) (f : Option BookFilter) : List Book :=
  (books.filter (rowMatches f)).mergeSort (fun a b => decide (b.CreatedAt ≤ a.CreatedAt))

/-- The WHERE conditions built by `bookRepository.Count` — the Go code
duplicates the builder of `GetAll` verbatim. -/
def countConds (f : BookFilter) : List (Book → Bool) :=
  (if f.Author ≠ "" then [fun b : Book => ciLike b.Author f.Author]
   else ([] : List (Book → Bool))) ++
  (if f.Genre ≠ "" then [fun b : Book => ciEq b.Genre f.Genre]
   else ([] : List (Book → Bool))) ++
  (match f.Available with
   | some v => [fun b : Book => b.Available == v]
   | none => ([] : List (Book → Bool))) ++
  (if f.Search ≠ "" then
    [fun b : Book => ciLike b.Title f.Search || ciLike b.Author f.Search ||
              ciLike b.Description f.Search]
   else ([] : List (Book → Bool)))

/-- Row predicate of `bookRepository.Count`. -/
def countMatches (f : Option BookFilter) (b : Book) : Bool :=
  match f with
  | none => true
  | some f => (countConds f).all (fun c => c b)

/-- `bookRepository.Count`: `SELECT COUNT(*) FROM books WHERE ...`. -/
def Count (books : List Book) (f : Option BookFilter) : Nat :=
  (books.filter (countMatches f)).length

/-- `bookRepository.Create`: INSERT assigning the next SERIAL id;
`RETURNING` hands back the stored timestamps (there is no INSERT
trigger, so they are the ones supplied). -/
def repoCreate (st : Store) (b : Book) : Book × Store :=
  let b' := { b with ID := st.nextId }
  (b', ⟨st.books ++ [b'], st.nextId + 1⟩)

/-- `bookRepository.Update`: UPDATE of the row with the book's id (the
service only calls it for existing rows). -/
def repoUpdate (st : Store) (b : Book) : Book × Store :=
  (b, ⟨st.books.map (fun x => if x.ID == b.ID then b else x), st.nextId⟩)

/-- `bookRepository.Delete`: `DELETE FROM books WHERE id = $1`. -/
def repoDelete (st : Store) (id : Int) : Store :=
  ⟨st.books.filter (fun b => b.ID != id), st.nextId⟩

/-! ## Service layer (`bookService`) -/

/-- Error taxonomy of the specification, as produced by the service. -/
inductive SvcError where
  | validationError (msg : String)
  | conflictError (isbn : String)
  | invalidArgument
  | notFound
deriving DecidableEq

/-- Repository calls `CreateBook` can make, for tracing. -/
inductive RepoCall where
  | getByISBNCall (isbn : String)
  | createCall
deriving DecidableEq

/-- `bookService.CreateBook`: validate, check the ISBN pre-condition,
convert, persist.  Returns the result, the resulting store, and the
trace of repository calls made (in order). -/
def CreateBook (st : Store) (now : Nat) (req : CreateBookRequest) :
    Except SvcError Book × Store × List RepoCall :=
  match req.Validate with
  | some m => (.error (.validationError m), st, [])
  | none =>
    match getByISBN st.books req.ISBN with
    | some _ => (.error (.conflictError req.ISBN), st, [.getByISBNCall req.ISBN])
    | none =>
      let p := repoCreate st (req.ToBook now)
      (.ok p.1, p.2, [.getByISBNCall req.ISBN, .createCall])

/-- `bookService.GetBookByID`. -/
def GetBookByID (st : Store) (id : Int) : Except SvcError Book :=
  if id ≤ 0 then .error .invalidArgument
  else
    match getByID st.books id with
    | none => .error .notFound
    | some b => .ok b

/-- `bookService.GetAllBooks`: delegates to the repository and converts a
nil slice to an empty one (a no-op in this model, where `GetAll` already
returns a list). -/
def GetAllBooks (st : Store) (f : Option BookFilter) : List Book :=
  GetAll st.books f

/-- `bookService.GetBooksCount`. -/
def GetBooksCount (st : Store) (f : Option BookFilter) : Nat :=
  Count st.books f

/-- `bookService.UpdateBook`: id check, fetch, ISBN conflict pre-check,
merge via `ApplyTo`, persist. -/
def UpdateBook (st : Store) (now : Nat) (id : Int) (req : UpdateBookRequest) :
    Except SvcError Book × Store :=
  if id ≤ 0 then (.error .invalidArgument, st)
  else
    match getByID st.books id with
    | none => (.error .notFound, st)
    | some existing =>
      let conflicted : Bool :=
        match req.ISBN with
        | some newIsbn =>
          newIsbn != existing.ISBN &&
            (match getByISBN st.books newIsbn with
             | some c => c.ID != id
             | none => false)
        | none => false
      if conflicted then
        (.error (.conflictError (req.ISBN.getD "")), st)
      else
        let p := repoUpdate st (req.ApplyTo existing now)
        (.ok p.1, p.2)

/-- `bookService.DeleteBook`: id check, existence check, delete. -/
def DeleteBook (st : Store) (id : Int) : Except SvcError Unit × Store :=
  if id ≤ 0 then (.error .invalidArgument, st)
  else
    match getByID st.books id with
    | none => (.error .notFound, st)
    | some _ => (.ok (), repoDelete st id)

/-! ## Specification-side predicate for the filter semantics -/

/-- The filter predicate as the specification words it: author a
case-insensitive substring of the book's author, genre a case-insensitive
exact match, availability boolean equality, search a case-insensitive
substring of title, author or description; absent fields impose no
constraint and all present ones are conjoined. -/
def specMatches (f : BookFilter) (b : Book) : Bool :=
  (f.Author == "" || ciLike b.Author f.Author) &&
  (f.Genre == "" || ciEq b.Genre f.Genre) &&
  (match f.Available with
   | some v => b.Available == v
   | none => true) &&
  (f.Search == "" ||
    (ciLike b.Title f.Search || ciLike b.Author f.Search ||
     ciLike b.Description f.Search))

/-! ## Concrete inputs used by witnesses and counterexamples -/

/-- Concrete inputs reused by witnesses. -/
def st0 : Store := ⟨[], 1⟩

/-- A creation request whose only defect is an empty title. -/
def reqEmptyTitle : CreateBookRequest :=
  ⟨"", "A", "978-1", "P", 2000, "G", 10, ""⟩

/-- A creation request whose title is 256 characters long and which is
otherwise valid. -/
def reqLongTitle : CreateBookRequest :=
  ⟨String.mk (List.replicate 256 'a'), "A", "978-1", "P", 2000, "G", 10, ""⟩

/-- A stored book used by witnesses. -/
def bookA : Book := ⟨1, "T", "A", "978-1", "P", 2000, "G", 10, true, "D", 1, 1⟩

/-- A second stored book with a different id and ISBN. -/
def bookB : Book := ⟨2, "T2", "A2", "978-2", "P2", 2001, "G2", 20, false, "D2", 2, 2⟩

/-- A store holding just `bookA`. -/
def stA : Store := ⟨[bookA], 2⟩

/-- A store holding `bookA` and `bookB`. -/
def stAB : Store := ⟨[bookA, bookB], 3⟩

/-- A fully valid create request that reuses `bookA`'s ISBN. -/
def reqDup : CreateBookRequest := ⟨"T2", "A2", "978-1", "P2", 2001, "G2", 11, ""⟩

/-- The update request of the specification's example: only
`{available: false}` is supplied. -/
def reqAvail : UpdateBookRequest :=
  ⟨none, none, none, none, none, none, none, some false, none⟩

/-- `bookA` after applying `reqAvail` at time 2. -/
def bookA' : Book := { bookA with Available := false, UpdatedAt := 2 }

/-- The store after that update. -/
def stA' : Store := ⟨[bookA'], 2⟩

/-- An update that only supplies the ISBN "978-2" (held by `bookB`). -/
def reqIsbn : UpdateBookRequest :=
  ⟨none, none, some "978-2", none, none, none, none, none, none⟩

/-- A filter matching nothing in `stA`. -/
def fNone : BookFilter := ⟨"zzz", "", none, ""⟩

/-- An update request with an empty title and zero pages — values the
create path would reject. -/
def reqWeird : UpdateBookRequest :=
  ⟨some "", none, none, none, none, none, some 0, none, none⟩

/-! ## Helper lemmas -/

/-- `Validate` succeeds exactly when every hand-written check passes:
required strings non-empty, year in range, pages positive. -/
theorem validate_eq_none_iff (r : CreateBookRequest) :
    r.Validate = none ↔
      (r.Title ≠ "" ∧ r.Author ≠ "" ∧ r.ISBN ≠ "" ∧ r.Publisher ≠ "" ∧
       r.Genre ≠ "" ∧ 1000 ≤ r.PublishYear ∧ r.PublishYear ≤ 2030 ∧ 1 ≤ r.Pages) := by
  unfold CreateBookRequest.Validate
  split_ifs <;> simp_all
  omega

/-! ## Claim theorems -/

set_option maxRecDepth 8192 in
/-- Claim C1, as stated, is false on the code: a request whose title
exceeds the 255-character cap (and is otherwise valid) is not rejected
with a `ValidationError` — `Validate` performs no length checks, the
repository is consulted and the book is created. -/
theorem createBook_lengthCap_counterexample :
    255 < reqLongTitle.Title.length ∧
    (CreateBook st0 1 reqLongTitle).2.2 = [.getByISBNCall "978-1", .createCall] ∧
    (CreateBook st0 1 reqLongTitle).1.toOption.isSome = true := by
  refine ⟨?_, ?_, ?_⟩ <;> decide

/-- Claim C1 (amended): `CreateBook` fails with `ValidationError` when a
required field (title, author, isbn, publisher, genre) is empty,
`publish_year` is outside [1000, 2030] or `pages` < 1 (string lengths are
not checked); and whenever it fails with a `ValidationError`, no
repository call has been made and the store is unchanged. -/
theorem createBook_validation (st : Store) (now : Nat) (req : CreateBookRequest) :
    ((req.Title = "" ∨ req.Author = "" ∨ req.ISBN = "" ∨ req.Publisher = "" ∨
      req.Genre = "" ∨ req.PublishYear < 1000 ∨ 2030 < req.PublishYear ∨
      req.Pages < 1) →
      ∃ m, CreateBook st now req = (.error (.validationError m), st, [])) ∧
    (∀ m, (CreateBook st now req).1 = .error (.validationError m) →
      (CreateBook st now req).2.1 = st ∧ (CreateBook st now req).2.2 = []) := by
  constructor
  · intro h
    have hv : req.Validate ≠ none := by
      rw [Ne, validate_eq_none_iff]
      rintro ⟨h1, h2, h3, h4, h5, h6, h7, h8⟩
      rcases h with h|h|h|h|h|h|h|h <;>
        first
          | exact h1 h | exact h2 h | exact h3 h | exact h4 h | exact h5 h
          | omega
    cases hm : req.Validate with
    | none => exact absurd hm hv
    | some m => exact ⟨m, by simp [CreateBook, hm]⟩
  · intro m hm
    cases hv : req.Validate with
    | some m' =>
      simp [CreateBook, hv] at hm ⊢
    | none =>
      cases hbi : getByISBN st.books req.ISBN <;>
        simp [CreateBook, hv, hbi] at hm

/-- Witness for C1: the empty-title request is rejected with a
`ValidationError`, the store untouched and no repository call made. -/
theorem createBook_validation_witness :
    ∃ m, CreateBook st0 1 reqEmptyTitle = (.error (.validationError m), st0, []) :=
  (createBook_validation st0 1 reqEmptyTitle).1 (Or.inl rfl)

/-- Claim C3, as stated, is false on the code: a create request whose ISBN
equals a stored book's ISBN but which also fails validation (empty title)
is rejected with a `ValidationError`, not a `ConflictError` — validation
runs before the ISBN conflict check. -/
theorem createBook_conflict_counterexample :
    reqEmptyTitle.ISBN = bookA.ISBN ∧
    (CreateBook stA 5 reqEmptyTitle).1 =
      .error (.validationError "title is required") :=
  ⟨rfl, rfl⟩

/-- Claim C3 (amended): for every create request that passes validation
and whose ISBN exactly equals (by string equality) the ISBN of a book
already in the store, `CreateBook` fails with `ConflictError` and the
store — hence its book count — is unchanged. -/
theorem createBook_isbn_conflict (st : Store) (now : Nat) (req : CreateBookRequest)
    (hv : req.Validate = none) (b0 : Book) (hb : b0 ∈ st.books)
    (hI : b0.ISBN = req.ISBN) :
    CreateBook st now req =
      (.error (.conflictError req.ISBN), st, [.getByISBNCall req.ISBN]) := by
  have hsome : (getByISBN st.books req.ISBN).isSome := by
    rw [getByISBN, List.find?_isSome]
    exact ⟨b0, hb, by simp [hI]⟩
  cases hg : getByISBN st.books req.ISBN with
  | none => rw [hg] at hsome; simp at hsome
  | some c => simp [CreateBook, hv, hg]

/-- Witness for C3 (amended): creating `reqDup` against a store already
holding its ISBN yields a `ConflictError` and leaves the store as it
was. -/
theorem createBook_isbn_conflict_witness :
    CreateBook stA 5 reqDup =
      (.error (.conflictError "978-1"), stA, [.getByISBNCall "978-1"]) :=
  createBook_isbn_conflict stA 5 reqDup (by decide) bookA (by decide) rfl

/-- Claim C2: a successful `UpdateBook` merges exactly the supplied
fields onto the stored book, keeps id, created_at and every absent field
unchanged, and stamps updated_at with the (strictly later) current
time. -/
theorem updateBook_frame (st : Store) (now : Nat) (id : Int)
    (req : UpdateBookRequest) (b b' : Book) (st' : Store)
    (hb : getByID st.books id = some b)
    (hok : UpdateBook st now id req = (.ok b', st'))
    (hlt : b.UpdatedAt < now) :
    b'.Title = req.Title.getD b.Title ∧
    b'.Author = req.Author.getD b.Author ∧
    b'.ISBN = req.ISBN.getD b.ISBN ∧
    b'.Publisher = req.Publisher.getD b.Publisher ∧
    b'.PublishYear = req.PublishYear.getD b.PublishYear ∧
    b'.Genre = req.Genre.getD b.Genre ∧
    b'.Pages = req.Pages.getD b.Pages ∧
    b'.Available = req.Available.getD b.Available ∧
    b'.Description = req.Description.getD b.Description ∧
    b'.ID = b.ID ∧ b'.CreatedAt = b.CreatedAt ∧
    b'.UpdatedAt = now ∧ b.UpdatedAt < b'.UpdatedAt := by
  by_cases hid : id ≤ 0
  · simp [UpdateBook, hid] at hok
  · simp only [UpdateBook, hb, hid, if_false, ite_false] at hok
    split at hok
    · simp at hok
    · rw [Prod.mk.injEq, repoUpdate] at hok
      have hb' : b' = req.ApplyTo b now := (Except.ok.inj hok.1).symm
      subst hb'
      simp [UpdateBookRequest.ApplyTo, hlt]

/-- Witness for C2: updating `bookA` with only `{available: false}`
leaves title (and the rest) unchanged, flips `available`, and moves
`updated_at` strictly forward. -/
theorem updateBook_frame_witness :
    UpdateBook stA 2 1 reqAvail = (.ok bookA', stA') ∧
    bookA'.Title = bookA.Title ∧ bookA'.Author = bookA.Author ∧
    bookA'.Available = false ∧ bookA'.CreatedAt = bookA.CreatedAt ∧
    bookA.UpdatedAt < bookA'.UpdatedAt := by
  have h := updateBook_frame stA 2 1 reqAvail bookA bookA' stA'
    (by decide) rfl (by decide)
  exact ⟨rfl, h.1, h.2.1, h.2.2.2.2.2.2.2.1, h.2.2.2.2.2.2.2.2.2.2.1,
    h.2.2.2.2.2.2.2.2.2.2.2.2⟩

/-- Claim C4: when an update supplies an ISBN different from the stored
book's and another stored book (necessarily with a different id, ids
being distinct) holds that ISBN, `UpdateBook` fails with `ConflictError`
and leaves the store unchanged; when the supplied ISBN equals the current
one, or no stored book holds it, no `ConflictError` is raised. -/
theorem updateBook_isbn_conflict (st : Store) (now : Nat) (id : Int)
    (req : UpdateBookRequest) (b : Book) (newIsbn : String)
    (hids : st.books.Pairwise (fun x y => x.ID ≠ y.ID))
    (hpos : 0 < id)
    (hb : getByID st.books id = some b)
    (hreq : req.ISBN = some newIsbn) :
    ((newIsbn ≠ b.ISBN ∧ ∃ b2 ∈ st.books, b2.ISBN = newIsbn) →
       UpdateBook st now id req = (.error (.conflictError newIsbn), st)) ∧
    ((newIsbn = b.ISBN ∨ ∀ b2 ∈ st.books, b2.ISBN ≠ newIsbn) →
       ∀ s, (UpdateBook st now id req).1 ≠ .error (.conflictError s)) := by
  have hid : ¬ id ≤ 0 := by omega
  have hbmem : b ∈ st.books := List.mem_of_find?_eq_some hb
  have hbid : b.ID = id := by
    have := List.find?_some hb
    simpa using this
  constructor
  · rintro ⟨hne, b2, hb2, hb2i⟩
    have hsome : (getByISBN st.books newIsbn).isSome := by
      rw [getByISBN, List.find?_isSome]
      exact ⟨b2, hb2, by simp [hb2i]⟩
    cases hg : getByISBN st.books newIsbn with
    | none => rw [hg] at hsome; simp at hsome
    | some c =>
      have hcmem : c ∈ st.books := List.mem_of_find?_eq_some hg
      have hci : c.ISBN = newIsbn := by
        have := List.find?_some hg
        simpa using this
      have hsym : Symmetric (fun x y : Book => x.ID ≠ y.ID) :=
        fun _ _ h => h.symm
      have hcid : c.ID ≠ id := by
        intro hcontra
        rcases eq_or_ne c b with hcb | hcb
        · subst hcb
          exact hne hci.symm
        · exact hids.forall hsym hcmem hbmem hcb (hcontra.trans hbid.symm)
      simp [UpdateBook, hid, hb, hreq, hg, hne, hcid]
  · intro hno s
    rcases hno with heq | hnone
    · simp [UpdateBook, hid, hb, hreq, heq]
    · have hg : getByISBN st.books newIsbn = none := by
        rw [getByISBN, List.find?_eq_none]
        intro x hx
        simp [hnone x hx]
      simp [UpdateBook, hid, hb, hreq, hg]

/-- Witness for C4: moving `bookA` onto `bookB`'s ISBN conflicts and
leaves the store unchanged, while "updating" `bookB` to its own ISBN
raises no conflict. -/
theorem updateBook_isbn_conflict_witness :
    UpdateBook stAB 5 1 reqIsbn = (.error (.conflictError "978-2"), stAB) ∧
    (UpdateBook stAB 5 2 reqIsbn).1 ≠ .error (.conflictError "978-2") := by
  constructor
  · exact (updateBook_isbn_conflict stAB 5 1 reqIsbn bookA "978-2"
      (by decide) (by decide) rfl rfl).1 ⟨by decide, bookB, by decide, rfl⟩
  · exact (updateBook_isbn_conflict stAB 5 2 reqIsbn bookB "978-2"
      (by decide) (by decide) rfl rfl).2 (Or.inl rfl) "978-2"

/-- `rowMatches` computes exactly the specification's filter predicate. -/
theorem rowMatches_eq_specMatches (f : BookFilter) (b : Book) :
    rowMatches (some f) b = specMatches f b := by
  rcases f with ⟨fa, fg, fav, fs⟩
  simp only [rowMatches, filterConds, specMatches, List.all_append]
  cases fav <;> split_ifs <;> simp_all [beq_eq_decide]

/-- The `Count` predicate coincides with the `GetAll` predicate (the Go
code duplicates the same condition builder). -/
theorem countMatches_eq_rowMatches (f : Option BookFilter) (b : Book) :
    countMatches f b = rowMatches f b := by
  cases f <;> rfl

/-- Claim C5: `GetAllBooks` returns exactly the stored books satisfying
the conjunction of the present filter fields (author: case-insensitive
substring; genre: case-insensitive exact match; available: boolean
equality; search: case-insensitive substring of title/author/description,
never of isbn), ordered by `created_at` descending, and the empty list
when nothing matches. -/
theorem getAllBooks_spec (st : Store) (f : BookFilter) :
    (GetAllBooks st (some f)).Perm (st.books.filter (specMatches f)) ∧
    (GetAllBooks st (some f)).Pairwise (fun a b => b.CreatedAt ≤ a.CreatedAt) ∧
    ((∀ b ∈ st.books, specMatches f b = false) → GetAllBooks st (some f) = []) ∧
    (∀ b isbn, rowMatches (some f) b = rowMatches (some f) { b with ISBN := isbn }) := by
  have hfe : st.books.filter (rowMatches (some f)) = st.books.filter (specMatches f) :=
    List.filter_congr (fun b _ => rowMatches_eq_specMatches f b)
  refine ⟨?_, ?_, ?_, ?_⟩
  · rw [GetAllBooks, GetAll, hfe]
    exact List.mergeSort_perm _ _
  · have htrans : ∀ a b c : Book,
        decide (b.CreatedAt ≤ a.CreatedAt) = true →
        decide (c.CreatedAt ≤ b.CreatedAt) = true →
        decide (c.CreatedAt ≤ a.CreatedAt) = true := by
      intro a b c hab hbc
      simp only [decide_eq_true_eq] at *
      omega
    have htotal : ∀ a b : Book,
        (decide (b.CreatedAt ≤ a.CreatedAt) || decide (a.CreatedAt ≤ b.CreatedAt)) = true := by
      intro a b
      simp only [Bool.or_eq_true, decide_eq_true_eq]
      omega
    exact (List.sorted_mergeSort htrans htotal
      (st.books.filter (rowMatches (some f)))).imp (fun hab => by simpa using hab)
  · intro hnone
    rw [GetAllBooks, GetAll, hfe, List.filter_eq_nil_iff.mpr ?_]
    · exact List.mergeSort_nil
    · intro b hb
      simp [hnone b hb]
  · intro b isbn
    rw [rowMatches_eq_specMatches, rowMatches_eq_specMatches]
    rfl

/-- Witness for C5: with an author filter matching no stored book,
`GetAllBooks` returns the empty list (not a null value). -/
theorem getAllBooks_spec_witness :
    GetAllBooks stA (some fNone) = [] :=
  (getAllBooks_spec stA fNone).2.2.1 (by decide)

/-- Claim C6: `GetBooksCount` equals the length of the `GetAllBooks`
result for every store and filter — the two share predicate
semantics. -/
theorem getBooksCount_eq_getAllBooks_length (st : Store) (f : Option BookFilter) :
    GetBooksCount st f = (GetAllBooks st f).length := by
  rw [GetBooksCount, Count, GetAllBooks, GetAll,
    List.filter_congr (fun b _ => countMatches_eq_rowMatches f b)]
  exact ((List.mergeSort_perm _ _).length_eq).symm

/-- Claim C7: a valid create request with a previously unused ISBN
succeeds; the created book is available, has positive assigned id, equal
non-zero timestamps, and all other fields copied from the request; it is
appended to the store. -/
theorem createBook_success (st : Store) (now : Nat) (req : CreateBookRequest)
    (hv : req.Validate = none)
    (hfresh : ∀ b ∈ st.books, b.ISBN ≠ req.ISBN)
    (hnext : 0 < st.nextId) (hnow : 0 < now) :
    ∃ b', CreateBook st now req =
        (.ok b', ⟨st.books ++ [b'], st.nextId + 1⟩,
         [.getByISBNCall req.ISBN, .createCall]) ∧
      b'.Available = true ∧ 0 < b'.ID ∧
      b'.CreatedAt = b'.UpdatedAt ∧ b'.CreatedAt = now ∧ b'.CreatedAt ≠ 0 ∧
      b'.Title = req.Title ∧ b'.Author = req.Author ∧ b'.ISBN = req.ISBN ∧
      b'.Publisher = req.Publisher ∧ b'.PublishYear = req.PublishYear ∧
      b'.Genre = req.Genre ∧ b'.Pages = req.Pages ∧
      b'.Description = req.Description := by
  have hg : getByISBN st.books req.ISBN = none := by
    rw [getByISBN, List.find?_eq_none]
    intro b hb
    simp [hfresh b hb]
  refine ⟨{ req.ToBook now with ID := st.nextId }, ?_, ?_⟩
  · simp [CreateBook, hv, hg, repoCreate]
  · refine ⟨rfl, hnext, rfl, rfl, ?_, rfl, rfl, rfl, rfl, rfl, rfl, rfl, rfl⟩
    show now ≠ 0
    omega

/-- Witness for C7: creating `reqDup` in the empty store yields the
expected book with id 1 and timestamps 1. -/
theorem createBook_success_witness :
    ∃ b', CreateBook st0 1 reqDup =
        (.ok b', ⟨st0.books ++ [b'], st0.nextId + 1⟩,
         [.getByISBNCall reqDup.ISBN, .createCall]) ∧
      b'.Available = true ∧ 0 < b'.ID ∧
      b'.CreatedAt = b'.UpdatedAt ∧ b'.CreatedAt = 1 ∧ b'.CreatedAt ≠ 0 ∧
      b'.Title = reqDup.Title ∧ b'.Author = reqDup.Author ∧
      b'.ISBN = reqDup.ISBN ∧ b'.Publisher = reqDup.Publisher ∧
      b'.PublishYear = reqDup.PublishYear ∧ b'.Genre = reqDup.Genre ∧
      b'.Pages = reqDup.Pages ∧ b'.Description = reqDup.Description :=
  createBook_success st0 1 reqDup (by decide) (by decide) (by decide) (by decide)

/-- Claim C8: `DeleteBook` rejects non-positive ids with
`InvalidArgument`, missing ids with `NotFound`, and after a successful
deletion the id can no longer be retrieved: `GetBookByID` fails with
`NotFound`. -/
theorem deleteBook_spec (st : Store) (id : Int) :
    (id ≤ 0 → DeleteBook st id = (.error .invalidArgument, st)) ∧
    (0 < id → getByID st.books id = none →
       DeleteBook st id = (.error .notFound, st)) ∧
    (∀ st', DeleteBook st id = (.ok (), st') →
       GetBookByID st' id = .error .notFound) := by
  refine ⟨?_, ?_, ?_⟩
  · intro hid
    simp [DeleteBook, hid]
  · intro hid hnone
    have hid' : ¬ id ≤ 0 := by omega
    simp [DeleteBook, hid', hnone]
  · intro st' hdel
    by_cases hid : id ≤ 0
    · simp [DeleteBook, hid] at hdel
    · cases hg : getByID st.books id with
      | none => simp [DeleteBook, hid, hg] at hdel
      | some b =>
        simp only [DeleteBook, hid, if_false, ite_false, hg] at hdel
        have hst' : st' = repoDelete st id := by
          have h2 := congrArg Prod.snd hdel
          simp at h2
          exact h2.symm
        subst hst'
        have hnone : getByID (repoDelete st id).books id = none := by
          rw [getByID, List.find?_eq_none]
          intro x hx
          have hxm := List.of_mem_filter hx
          simp only [bne_iff_ne, ne_eq] at hxm
          simp [hxm]
        simp [GetBookByID, hid, hnone]

/-- Witness for C8: in the one-book store, deleting id 0 is rejected,
deleting the absent id 5 is not found, and after deleting id 1 the
lookup of id 1 fails with `NotFound`. -/
theorem deleteBook_spec_witness :
    DeleteBook stA 0 = (.error .invalidArgument, stA) ∧
    DeleteBook stA 5 = (.error .notFound, stA) ∧
    GetBookByID (⟨[], 2⟩ : Store) 1 = .error .notFound := by
  refine ⟨(deleteBook_spec stA 0).1 (by omega),
    (deleteBook_spec stA 5).2.1 (by omega) (by decide),
    (deleteBook_spec stA 1).2.2 ⟨[], 2⟩ rfl⟩

/-- Claim C9: `UpdateBook` never produces a `ValidationError`: every
service-layer failure is `InvalidArgument`, `NotFound` or a
`ConflictError`, and every success is the verbatim `ApplyTo` merge of the
request onto the stored book, with no field validation. -/
theorem updateBook_no_validation (st : Store) (now : Nat) (id : Int)
    (req : UpdateBookRequest) :
    (∀ e, (UpdateBook st now id req).1 = .error e →
       e = .invalidArgument ∨ e = .notFound ∨ ∃ s, e = .conflictError s) ∧
    (∀ b', (UpdateBook st now id req).1 = .ok b' →
       ∃ b, getByID st.books id = some b ∧ b' = req.ApplyTo b now) := by
  constructor
  · intro e he
    by_cases hid : id ≤ 0
    · simp [UpdateBook, hid] at he
      exact Or.inl he.symm
    · cases hg : getByID st.books id with
      | none =>
        simp [UpdateBook, hid, hg] at he
        exact Or.inr (Or.inl he.symm)
      | some b =>
        simp only [UpdateBook, hid, if_false, ite_false, hg] at he
        split at he
        · simp at he
          exact Or.inr (Or.inr ⟨_, he.symm⟩)
        · simp [repoUpdate] at he
  · intro b' hb'
    by_cases hid : id ≤ 0
    · simp [UpdateBook, hid] at hb'
    · cases hg : getByID st.books id with
      | none => simp [UpdateBook, hid, hg] at hb'
      | some b =>
        simp only [UpdateBook, hid, if_false, ite_false, hg] at hb'
        split at hb'
        · simp at hb'
        · simp [repoUpdate] at hb'
          exact ⟨b, rfl, hb'.symm⟩

/-- Witness for C9: the empty-title / zero-pages update is accepted and
merged verbatim onto the stored book. -/
theorem updateBook_no_validation_witness :
    ∃ b, getByID stA.books 1 = some b ∧
      { bookA with Title := "", Pages := 0, UpdatedAt := 2 } =
        reqWeird.ApplyTo b 2 :=
  (updateBook_no_validation stA 2 1 reqWeird).2
    { bookA with Title := "", Pages := 0, UpdatedAt := 2 } rfl

/-- Claim C10: a filter whose string fields are empty and whose
availability field is absent behaves exactly like the absent filter, for
both listing and counting. -/
theorem emptyFilter_eq_noFilter (st : Store) :
    GetAllBooks st (some ⟨"", "", none, ""⟩) = GetAllBooks st none ∧
    GetBooksCount st (some ⟨"", "", none, ""⟩) = GetBooksCount st none :=
  ⟨rfl, rfl⟩

end LibraryMgmt
